import Mathlib

/-!
Verification of the LTP-derived conformance-test corpus against its
specification.  The source files embedded here are:

* `fgetxattr02` (src/unnamed/part_000): seven fgetxattr(2) cases over a
  static table `tc`, verified by `verify_fgetxattr`;
* `access04` (src/testcases/kernel/syscalls/access/access04_setup.c):
  six expected-errno cases over `tcases`, with a stub `verify_access`;
* `chmod05` (src/testcases/kernel/syscalls/chmod/chmod05_setup.c and
  chmod05_child.c): setgid-clearing check on a directory;
* `rename07` / `rename04`
  (src/testcases/kernel/syscalls/rename/rename07_run.c, three
  concatenated documents): ENOTDIR and ENOTEMPTY rename failures.

Syscalls themselves (fgetxattr, chmod, rename, access) are external to
the repository; where a claim depends on their behaviour they are
modelled from the spec, and each such definition says so in its doc
comment.  Everything else is translated directly from the C sources.
-/

namespace LtpSpec

/-! ### Errno and mode constants (Linux, x86-64) -/

def EPERM : Nat := 1
def ENOENT : Nat := 2
def EEXIST : Nat := 17
def ENOTDIR : Nat := 20
def EINVAL : Nat := 22
def EROFS : Nat := 30
def ENAMETOOLONG : Nat := 36
def ENOTEMPTY : Nat := 39
def ELOOP : Nat := 40
def ENODATA : Nat := 61
def EOPNOTSUPP : Nat := 95

def R_OK : Int := 4
def W_OK : Int := 2

def O_RDONLY : Nat := 0
def O_NONBLOCK : Nat := 2048

def S_IRWXU : Nat := 0o700
def S_IRWXG : Nat := 0o070
def S_IRWXO : Nat := 0o007
def S_ISUID : Nat := 0o4000
def S_ISGID : Nat := 0o2000
def S_ISVTX : Nat := 0o1000
def S_IFDIR : Nat := 0o40000

/-! ### Harness-level result reporting

`tst_res(TPASS, ...)` / `tst_res(TFAIL, ...)` record a per-case verdict
and continue; `tst_brk(TCONF, ...)` records a "not applicable" verdict
and terminates the whole test run.  We model an emitted result as a
`Verdict` and keep the run-terminating nature of `tst_brk` as a
separate boolean in the step result. -/

inductive Verdict where
  | tpass (msg : String)
  | tfail (msg : String)
  | tconf (msg : String)
  deriving DecidableEq, Repr

/-- Snapshot of one syscall invocation: `TST_RET` and `TST_ERR`. -/
structure Outcome where
  ret : Int
  err : Nat
  deriving DecidableEq, Repr

/-! ### fgetxattr02 (src/unnamed/part_000) -/

def XATTR_TEST_VALUE : String := "this is a test value"
def XATTR_TEST_VALUE_SIZE : Nat := 20
def XATTR_CREATE : Nat := 1

/-- The expected attribute value as a byte/char sequence; `strncmp`
comparisons are modelled on `List Char`. -/
def xattrValue : List Char := XATTR_TEST_VALUE.data

/-- Record `struct test_case` from part_000.  `ret_value` is the late-bound
retrieval buffer (NULL = `none`). -/
structure TestCase where
  fname : String
  fd : Int
  fflags : Nat
  key : String
  value : String
  size : Nat
  ret_value : Option (List Char)
  flags : Nat
  exp_err : Nat
  exp_ret : Int
  issocket : Bool
  deriving DecidableEq, Repr

/-- The static case table `tc` of part_000, translated field by field.
Fields absent from a C initializer are zero, hence `fd = 0`,
`ret_value = none`, `issocket = false` unless written. -/
def tc : List TestCase :=
  [ { fname := "/tmp/fgetxattr02testfile", fd := 0, fflags := O_RDONLY,
      key := "user.testkey", value := XATTR_TEST_VALUE,
      size := XATTR_TEST_VALUE_SIZE, ret_value := none, flags := XATTR_CREATE,
      exp_err := 0, exp_ret := 20, issocket := false },
    { fname := "/tmp/fgetxattr02testdir", fd := 0, fflags := O_RDONLY,
      key := "user.testkey", value := XATTR_TEST_VALUE,
      size := XATTR_TEST_VALUE_SIZE, ret_value := none, flags := XATTR_CREATE,
      exp_err := 0, exp_ret := 20, issocket := false },
    { fname := "fgetxattr02symlink", fd := 0, fflags := O_RDONLY,
      key := "user.testkey", value := XATTR_TEST_VALUE,
      size := XATTR_TEST_VALUE_SIZE, ret_value := none, flags := XATTR_CREATE,
      exp_err := 0, exp_ret := 20, issocket := false },
    { fname := "/tmp/mntpoint/fgetxattr02fifo", fd := 0,
      fflags := O_RDONLY ||| O_NONBLOCK,
      key := "user.testkey", value := XATTR_TEST_VALUE,
      size := XATTR_TEST_VALUE_SIZE, ret_value := none, flags := XATTR_CREATE,
      exp_err := ENODATA, exp_ret := -1, issocket := false },
    { fname := "/tmp/mntpoint/fgetxattr02chr", fd := 0, fflags := O_RDONLY,
      key := "user.testkey", value := XATTR_TEST_VALUE,
      size := XATTR_TEST_VALUE_SIZE, ret_value := none, flags := XATTR_CREATE,
      exp_err := ENODATA, exp_ret := -1, issocket := false },
    { fname := "/tmp/mntpoint/fgetxattr02blk", fd := 0, fflags := O_RDONLY,
      key := "user.testkey", value := XATTR_TEST_VALUE,
      size := XATTR_TEST_VALUE_SIZE, ret_value := none, flags := XATTR_CREATE,
      exp_err := ENODATA, exp_ret := -1, issocket := false },
    { fname := "fgetxattr02sock", fd := 0, fflags := O_RDONLY,
      key := "user.testkey", value := XATTR_TEST_VALUE,
      size := XATTR_TEST_VALUE_SIZE, ret_value := none, flags := XATTR_CREATE,
      exp_err := ENODATA, exp_ret := -1, issocket := true } ]

def defaultCase : TestCase :=
  { fname := "", fd := 0, fflags := 0, key := "", value := "", size := 0,
    ret_value := none, flags := 0, exp_err := 0, exp_ret := 0,
    issocket := false }

def tcAt (i : Nat) : TestCase := tc.getD i defaultCase

/-- Result of one `verify_fgetxattr` step: the verdicts it emitted in
order, the (possibly mutated) table entry it leaves behind, and whether
it ended the whole run via `tst_brk(TCONF, ...)`. -/
structure VerifyResult where
  verdicts : List Verdict
  tcAfter : TestCase
  brkConf : Bool
  deriving DecidableEq, Repr

/-- Function `verify_fgetxattr` from part_000, as a function of the case entry
`c`, the observed outcome of the invocation `obs` (`TST_RET`, `TST_ERR`),
the retrieved buffer content `buf`, and `kverLt300 =
(tst_kvercmp(3,0,0) < 0)`.  The branch structure mirrors the C body:
EOPNOTSUPP check first (tst_brk); then the `TST_RET >= 0` block,
which compares `exp_ret`, runs the `strncmp` content check, and then
unconditionally reports the "got the right value" TPASS; then the
in-place ENODATA→EPERM rewrite of `exp_err` for pre-3.0.0 kernels;
then the errno comparison. -/
def verify_fgetxattr (kverLt300 : Bool) (c : TestCase) (obs : Outcome)
    (buf : List Char) : VerifyResult :=
  if obs.ret = -1 ∧ obs.err = EOPNOTSUPP then
    { verdicts := [Verdict.tconf "fgetxattr(2) not supported"],
      tcAfter := c, brkConf := true }
  else
    let v1 : List Verdict :=
      if 0 ≤ obs.ret then
        (if c.exp_ret = obs.ret then
           [Verdict.tpass "fgetxattr(2) on %s passed"]
         else
           [Verdict.tfail "fgetxattr(2) on %s passed unexpectedly %ld"]) ++
        (if buf.take XATTR_TEST_VALUE_SIZE ≠
            xattrValue.take XATTR_TEST_VALUE_SIZE then
           [Verdict.tfail "wrong value"]
         else []) ++
        [Verdict.tpass "fgetxattr(2) on %s got the right value"]
      else []
    let c2 : TestCase :=
      if c.exp_err = ENODATA ∧ kverLt300 then { c with exp_err := EPERM }
      else c
    let v2 : List Verdict :=
      if c2.exp_err = obs.err then
        [Verdict.tpass "fgetxattr(2) on %s passed"]
      else
        [Verdict.tfail "fgetxattr(2) failed on %s"]
    { verdicts := v1 ++ v2, tcAfter := c2, brkConf := false }

/-- Environment of one run: kernel-version predicate and the observed
outcome/buffer the invocation of case `i` produces. -/
structure Env where
  kverLt300 : Bool
  outcomeOf : Nat → Outcome
  bufOf : Nat → List Char

/-- The harness case loop: runs `verify_fgetxattr` on each remaining
table entry in order; a `tst_brk` result terminates the run, so no
later case executes. -/
def runLoop (env : Env) : List TestCase → Nat → List (Nat × VerifyResult)
  | [], _ => []
  | c :: rest, i =>
    let r := verify_fgetxattr env.kverLt300 c (env.outcomeOf i) (env.bufOf i)
    if r.brkConf then [(i, r)]
    else (i, r) :: runLoop env rest (i + 1)

/-- Filesystem object kinds relevant to the fgetxattr02 table. -/
inductive FType where
  | reg | dir | lnkToReg | fifo | chr | blk | sock
  deriving DecidableEq, Repr

/-- The object type each fgetxattr02 case targets, read off the path
macros of the table (FILENAME regular file, DIRNAME directory, SYMLINK
symlink to the regular file, FIFO, CHR, BLK, SOCK). -/
def caseType : Nat → FType
  | 0 => .reg
  | 1 => .dir
  | 2 => .lnkToReg
  | 3 => .fifo
  | 4 => .chr
  | 5 => .blk
  | _ => .sock

def isSpecial : FType → Bool
  | .fifo | .chr | .blk | .sock => true
  | _ => false

/-- Modelled from the spec: the fgetxattr(2) syscall itself is not part
of this repository (the test only invokes it).  Per the spec (§8
round-trip and negative-path properties) and the header contract of the test itself
contract: in the `user.*` namespace only regular files and directories
(and a symlink resolved to the regular file) can carry the attribute —
retrieval succeeds with the full value exactly when it was set,
otherwise fails with ENODATA; on FIFOs, character/block specials and
sockets retrieval always fails, with ENODATA on kernels ≥ 3.0.0 and
EPERM before (commit 55b23bd).  Returns the outcome and the buffer
content after the call. -/
def fgetxattr_syscall (t : FType) (attrSet kverLt300 : Bool) :
    Outcome × List Char :=
  match t with
  | .reg | .dir | .lnkToReg =>
    if attrSet then ((⟨(20 : Int), 0⟩ : Outcome), xattrValue)
    else ((⟨-1, ENODATA⟩ : Outcome), [])
  | _ => ((⟨-1, if kverLt300 then EPERM else ENODATA⟩ : Outcome), [])

/-- Fixture state the fgetxattr02 setup is responsible for: whether the
fixture objects exist, whether `user.testkey` was set on them, and
whether the descriptors of the table were opened. -/
structure XattrFixture where
  filesCreated : Bool
  attrSet : Bool
  fdsOpened : Bool
  deriving DecidableEq, Repr

/-- Function `setup` from part_000.  Its body is empty (`static void setup(void)
{}`): it creates nothing, sets no attribute, opens no descriptor. -/
def fgetxattr02_setup (s : XattrFixture) : XattrFixture := s

def initialFixture : XattrFixture :=
  { filesCreated := false, attrSet := false, fdsOpened := false }

/-! ### access04 (access04_setup.c) -/

/-- Record `struct tcase` of access04. -/
structure AccessTcase where
  pathname : String
  mode : Int
  exp_errno : Nat
  deriving DecidableEq, Repr

/-- The access04 case table.  `longpathname` is a static `char[PATH_MAX
+ 2]` that nothing in this source ever fills, so as a C string it is
empty; we record the entry with its zero-filled content. -/
def tcases : List AccessTcase :=
  [ { pathname := "/tmp/accessfile1", mode := -1, exp_errno := EINVAL },
    { pathname := "", mode := W_OK, exp_errno := ENOENT },
    { pathname := "", mode := R_OK, exp_errno := ENAMETOOLONG },
    { pathname := "/tmp/accessfile2/accessfile2", mode := R_OK,
      exp_errno := ENOTDIR },
    { pathname := "/tmp/symlink1", mode := R_OK, exp_errno := ELOOP },
    { pathname := "/tmp/access04", mode := W_OK, exp_errno := EROFS } ]

/-- Function `verify_access` from access04_setup.c.  The body is a stub: it
reports one unconditional TPASS and never invokes access(2) nor looks
at the expected errno of the case. -/
def verify_access (n : Nat) : List Verdict :=
  [Verdict.tpass "No test function defined"]

/-! ### chmod05 (chmod05_setup.c, chmod05_child.c) -/

def MODE_RWX : Nat := S_IRWXU ||| S_IRWXG ||| S_IRWXO
def DIR_MODE : Nat := S_ISVTX ||| S_ISGID ||| S_IFDIR
def PERMS : Nat := MODE_RWX ||| DIR_MODE

/-- Value of `PERMS & ~S_ISGID` with 32-bit `mode_t` complement, as computed by
both chmod05 checkers. -/
def permsNoSetgid : Nat := PERMS &&& (0xFFFFFFFF ^^^ S_ISGID)

structure ChmodResult where
  ret : Int
  st_mode : Nat
  deriving DecidableEq, Repr

/-- Modelled from the spec: the chmod(2) syscall is not part of this
repository.  Per spec scenario C and the header contract of the test, when
the caller is the non-privileged owner of a directory and neither its
effective nor supplementary groups match the group of the directory, chmod
succeeds and installs the requested permission bits with the setgid
bit cleared; the mode returned by a subsequent stat keeps the
directory file-type bit. -/
def chmod_mismatchedGroup (req : Nat) : ChmodResult :=
  { ret := 0, st_mode := S_IFDIR ||| ((req &&& 0o7777) &&& (0o7777 ^^^ S_ISGID)) }

/-- Function `main` of chmod05_child.c: chmod(TESTDIR, PERMS), then stat and
compare `st_mode` against `PERMS & ~S_ISGID`.  Returns the process
return value and the verdict messages it prints. -/
def chmod05_child_main : Int × List Verdict :=
  let r := chmod_mismatchedGroup PERMS
  if r.ret = -1 then (-1, [Verdict.tfail "chmod(/tmp/testdir) failed"])
  else
    let dir_mode := r.st_mode
    if permsNoSetgid ≠ dir_mode then
      (1, [Verdict.tfail "/tmp/testdir: Incorrect modes"])
    else
      (1, [Verdict.tpass "Functionality of chmod(/tmp/testdir) successful"])

/-! ### rename07 / rename04 (rename07_run.c, three documents) -/

/-- Filesystem object state at a fixture path. -/
inductive FsObj where
  | absent | regFile | emptyDir | nonEmptyDir
  deriving DecidableEq, Repr

/-- Modelled from the spec: rename(2) is not part of this repository.
Only the combinations the two tests exercise are specified: renaming a
directory onto an existing plain file fails with ENOTDIR (scenario D);
renaming a directory onto a non-empty directory fails with ENOTEMPTY
(scenario E); onto an absent path or an empty directory it succeeds. -/
def rename_syscall (oldObj newObj : FsObj) : Outcome :=
  match oldObj, newObj with
  | .emptyDir, .regFile => ⟨-1, ENOTDIR⟩
  | .nonEmptyDir, .regFile => ⟨-1, ENOTDIR⟩
  | .emptyDir, .nonEmptyDir => ⟨-1, ENOTEMPTY⟩
  | .nonEmptyDir, .nonEmptyDir => ⟨-1, ENOTEMPTY⟩
  | _, _ => ⟨0, 0⟩

/-- Fixture state of the rename07 documents: the objects at
`/tmp/rename07_fdir` ("old") and `/tmp/rename07_mname` ("new"). -/
structure R7State where
  fdirObj : FsObj
  mnameObj : FsObj
  deriving DecidableEq, Repr

/-- One iteration of the rename07 test loop (first document, main):
`TEST(rename(fdir, mname))`, TFAIL if it succeeded, TFAIL if errno is
not ENOTDIR, TPASS otherwise.  On an unexpected success the rename has
moved `fdir` over `mname`, so the state changes; on failure the
filesystem is untouched. -/
def rename07_iter (s : R7State) : List Verdict × R7State :=
  let o := rename_syscall s.fdirObj s.mnameObj
  if o.ret ≠ -1 then
    ([Verdict.tfail "rename(fdir, mname) succeeded unexpectedly"],
     { fdirObj := .absent, mnameObj := s.fdirObj })
  else if o.err ≠ ENOTDIR then
    ([Verdict.tfail "Expected ENOTDIR"], s)
  else
    ([Verdict.tpass "rename() returned ENOTDIR"], s)

/-- The rename07 `-i n` loop: `n` iterations of the loop body. -/
def rename07_loop : Nat → R7State → List (List Verdict)
  | 0, _ => []
  | n + 1, s =>
    let r := rename07_iter s
    r.1 :: rename07_loop n r.2

/-- Function `setup` of the second rename07 document: `stat(fdir)` succeeding at
all — whatever the existing object is — is fatal (`tst_brkm(TBROK,
...)`); otherwise SAFE_MKDIR creates the "old" directory and
SAFE_TOUCH creates the "new" file (touch opens with O_CREAT, which
works on an absent path or an existing regular file but fails on a
directory). -/
def rename07_setup (s : R7State) : Except String R7State :=
  if s.fdirObj ≠ .absent then .error "tmp directory found"
  else if s.mnameObj = .emptyDir ∨ s.mnameObj = .nonEmptyDir then
    .error "touch failed"
  else .ok { fdirObj := .emptyDir, mnameObj := .regFile }

/-- Fixture state of chmod05: the object at `/tmp/testdir`. -/
structure C5State where
  testdir : FsObj
  deriving DecidableEq, Repr

/-- Fixture-creating step of the chmod05 `setup`:
`SAFE_MKDIR(TESTDIR, MODE_RWX)`.  mkdir(2) fails with EEXIST when the
path already exists, whatever the type of the existing object, and
SAFE_MKDIR escalates that to an aborting TBROK. -/
def chmod05_mkdir (s : C5State) : Except String C5State :=
  if s.testdir ≠ .absent then .error "mkdir EEXIST"
  else .ok { testdir := .emptyDir }

/-- Run steps of the `main` of a test program, for the documents whose main
never reaches a syscall invocation. -/
inductive Action where
  | callSetup
  | invokeRename
  | callCleanup
  deriving DecidableEq, Repr

/-- Function `main` of the rename04 document in rename07_run.c: it parses
options, calls `setup()`, then `cleanup()`, and returns — the test
loop announced in the ALGORITHM comment of the file is absent, so rename(2)
is never invoked. -/
def rename04_main : List Action := [Action.callSetup, Action.callCleanup]

/-- Environment in which every invocation of the syscall under test
reports `-1` with `EOPNOTSUPP` (a filesystem without xattr support). -/
def envNoXattrSupport : Env :=
  { kverLt300 := false,
    outcomeOf := fun _ => { ret := -1, err := EOPNOTSUPP },
    bufOf := fun _ => [] }

/-- Property package for one special-file case of the fgetxattr02
table: the table expects `(-1, ENODATA)`; the modelled syscall never
succeeds on that object type, returning ENODATA (EPERM before kernel
3.0.0); and classification of the modelled outcome passes, with the
expected errno substituted to EPERM before the comparison exactly on
pre-3.0.0 kernels. -/
abbrev specialCaseOk (i : Nat) : Prop :=
  isSpecial (caseType i) = true ∧
  (tcAt i).exp_ret = -1 ∧
  (tcAt i).exp_err = ENODATA ∧
  ∀ kverLt300 attrSet : Bool,
    (fgetxattr_syscall (caseType i) attrSet kverLt300).1.ret = -1 ∧
    (fgetxattr_syscall (caseType i) attrSet kverLt300).1.err =
      (if kverLt300 then EPERM else ENODATA) ∧
    (verify_fgetxattr kverLt300 (tcAt i)
        (fgetxattr_syscall (caseType i) attrSet kverLt300).1
        (fgetxattr_syscall (caseType i) attrSet kverLt300).2).verdicts =
      [Verdict.tpass "fgetxattr(2) on %s passed"] ∧
    (verify_fgetxattr kverLt300 (tcAt i)
        (fgetxattr_syscall (caseType i) attrSet kverLt300).1
        (fgetxattr_syscall (caseType i) attrSet kverLt300).2).tcAfter.exp_err =
      (if kverLt300 then EPERM else ENODATA)

/-! ## Theorems for the claims -/

/-- C1: the claim says each of the six access(2) cases is verified to
fail with its listed errno when its test function runs.  The code
disagrees with its own header comment: `verify_access` is a stub that
emits one unconditional TPASS for every case index, never invokes
access(2) and never compares any errno, although the table does list
the six expected errnos. -/
theorem access04_verify_is_stub :
    (∀ n : Nat, verify_access n = [Verdict.tpass "No test function defined"]) ∧
    tcases.map AccessTcase.exp_errno =
      [EINVAL, ENOENT, ENAMETOOLONG, ENOTDIR, ELOOP, EROFS] ∧
    (tcases.getD 0 { pathname := "", mode := 0, exp_errno := 0 }).exp_errno
      = EINVAL :=
  ⟨fun _ => rfl, by decide, by decide⟩

/-- C2: the claim says that after `user.testkey` has been set, the
retrieval for the regular-file, directory and symlink cases returns 20
with matching content.  The code disagrees with its own header
comment: `setup` is empty, so no fixture file is created, no attribute
is ever set and no descriptor is opened (`fd` stays 0), and retrieval
for case 00 cannot return the expected 20. -/
theorem fgetxattr02_setup_is_stub :
    fgetxattr02_setup initialFixture = initialFixture ∧
    (fgetxattr02_setup initialFixture).attrSet = false ∧
    (tcAt 0).exp_ret = 20 ∧
    (tcAt 0).fd = 0 ∧
    ∀ kverLt300 : Bool,
      (fgetxattr_syscall (caseType 0)
        (fgetxattr02_setup initialFixture).attrSet kverLt300).1.ret = -1 := by
  refine ⟨rfl, rfl, by decide, by decide, ?_⟩
  intro kv
  cases kv <;> rfl

/-- C3: for the FIFO, character-special, block-special and socket
cases, fgetxattr(2) never succeeds — the modelled syscall returns
`(-1, ENODATA)` (EPERM before kernel 3.0.0), the table expects exactly
that, and classification passes with the expected errno substituted to
EPERM before comparison exactly on pre-3.0.0 kernels. -/
theorem fgetxattr02_special_files_never_succeed :
    specialCaseOk 3 ∧ specialCaseOk 4 ∧ specialCaseOk 5 ∧ specialCaseOk 6 := by
  decide

/-- C4 counterexample: the claim says an EOPNOTSUPP verdict is per-case
and non-fatal, the remaining cases still executing.  In an environment
where the syscall reports EOPNOTSUPP, the seven-entry table runs only
its first case: `tst_brk(TCONF, ...)` terminates the run. -/
theorem eopnotsupp_aborts_run_counterexample :
    tc.length = 7 ∧
    (runLoop envNoXattrSupport tc 0).length = 1 ∧
    runLoop envNoXattrSupport tc 0 =
      [(0, { verdicts := [Verdict.tconf "fgetxattr(2) not supported"],
             tcAfter := tcAt 0, brkConf := true })] := by
  decide

/-- C4 as amended: when the syscall under test returns -1 with errno
EOPNOTSUPP, the case is classified as not-applicable (TCONF), not as a
failure — but the verdict is issued through tst_brk, which terminates
the run, so the remaining cases in the table do not execute. -/
theorem eopnotsupp_is_tconf_and_fatal (env : Env) (c : TestCase)
    (rest : List TestCase) (i : Nat)
    (h : env.outcomeOf i = { ret := -1, err := EOPNOTSUPP }) :
    (verify_fgetxattr env.kverLt300 c (env.outcomeOf i) (env.bufOf i)).verdicts
      = [Verdict.tconf "fgetxattr(2) not supported"] ∧
    (verify_fgetxattr env.kverLt300 c (env.outcomeOf i) (env.bufOf i)).brkConf
      = true ∧
    runLoop env (c :: rest) i =
      [(i, verify_fgetxattr env.kverLt300 c (env.outcomeOf i) (env.bufOf i))]
    := by
  have hv : verify_fgetxattr env.kverLt300 c (env.outcomeOf i) (env.bufOf i) =
      { verdicts := [Verdict.tconf "fgetxattr(2) not supported"],
        tcAfter := c, brkConf := true } := by
    rw [h]; rfl
  refine ⟨by rw [hv], by rw [hv], ?_⟩
  simp [runLoop, hv]

/-- Witness for the amended C4 theorem at a concrete environment. -/
theorem eopnotsupp_is_tconf_and_fatal_witness :
    runLoop envNoXattrSupport [defaultCase] 0 =
      [(0, verify_fgetxattr envNoXattrSupport.kverLt300 defaultCase
            (envNoXattrSupport.outcomeOf 0) (envNoXattrSupport.bufOf 0))] :=
  (eopnotsupp_is_tconf_and_fatal envNoXattrSupport defaultCase [] 0 rfl).2.2

/-- C5: with the chmod(2) contract of spec scenario C (non-privileged
owner, mismatched group), requesting PERMS — which includes the setgid
bit — succeeds, the resulting mode has the setgid bit cleared and every
other requested bit set (it equals `PERMS & ~S_ISGID`), and the
chmod05 child accordingly reports TPASS. -/
theorem chmod05_setgid_cleared :
    PERMS &&& S_ISGID = S_ISGID ∧
    (chmod_mismatchedGroup PERMS).ret = 0 ∧
    (chmod_mismatchedGroup PERMS).st_mode &&& S_ISGID = 0 ∧
    (chmod_mismatchedGroup PERMS).st_mode = permsNoSetgid ∧
    chmod05_child_main =
      (1, [Verdict.tpass "Functionality of chmod(/tmp/testdir) successful"])
    := by
  decide

/-- C6: starting from the fixture the rename07 setup produces (the old
path an empty directory, the new path a regular file), every iteration
of the rename07 test loop sees rename(2) fail with ENOTDIR and reports
TPASS. -/
theorem rename07_all_iterations_enotdir :
    rename07_setup { fdirObj := .absent, mnameObj := .absent } =
      .ok { fdirObj := .emptyDir, mnameObj := .regFile } ∧
    ∀ n : Nat,
      rename07_loop n { fdirObj := .emptyDir, mnameObj := .regFile } =
        List.replicate n [Verdict.tpass "rename() returned ENOTDIR"] := by
  refine ⟨rfl, ?_⟩
  intro n
  induction n with
  | zero => rfl
  | succ k ih =>
    have hstep : rename07_iter { fdirObj := .emptyDir, mnameObj := .regFile } =
        ([Verdict.tpass "rename() returned ENOTDIR"],
         { fdirObj := .emptyDir, mnameObj := .regFile }) := rfl
    simp [rename07_loop, hstep, ih, List.replicate]

/-- C7: the claim says the rename04 run invokes rename(2) and verifies
`(-1, ENOTEMPTY)`.  The code disagrees with its own ALGORITHM comment:
its main only calls setup and cleanup, never invoking rename — the
modelled syscall would indeed return `(-1, ENOTEMPTY)` for a directory
renamed onto a non-empty directory, but nothing in the run checks
it. -/
theorem rename04_never_invokes_rename :
    Action.invokeRename ∉ rename04_main ∧
    rename04_main = [Action.callSetup, Action.callCleanup] ∧
    rename_syscall .emptyDir .nonEmptyDir = { ret := -1, err := ENOTEMPTY }
    := by
  decide

/-- C8 counterexample: the claim says re-running setup over an
already-correct fixture set does not fail and that the builder aborts
only on a wrong-type object.  Running the rename07 setup on the exact
state a previous successful run produced (old directory present with
the correct type) aborts, and so does the chmod05 mkdir step when the
test directory already exists as a directory. -/
theorem setup_rerun_fails_counterexample :
    rename07_setup { fdirObj := .absent, mnameObj := .absent } =
      .ok { fdirObj := .emptyDir, mnameObj := .regFile } ∧
    rename07_setup { fdirObj := .emptyDir, mnameObj := .regFile } =
      .error "tmp directory found" ∧
    chmod05_mkdir { testdir := .emptyDir } = .error "mkdir EEXIST" :=
  ⟨rfl, rfl, rfl⟩

/-- C8 as amended: the fixture-creation step is not idempotent — the
rename07 setup aborts whenever the old directory path already exists,
whatever the type of the existing object, and the chmod05 setup aborts
whenever the test directory path already exists, because mkdir fails
with EEXIST; setup succeeds only on absent fixture paths. -/
theorem setup_aborts_whenever_fixture_exists (s : R7State) (t : C5State)
    (h1 : s.fdirObj ≠ .absent) (h2 : t.testdir ≠ .absent) :
    rename07_setup s = .error "tmp directory found" ∧
    chmod05_mkdir t = .error "mkdir EEXIST" := by
  constructor
  · simp [rename07_setup, h1]
  · simp [chmod05_mkdir, h2]

/-- Witness for the amended C8 theorem at a concrete correct-type
fixture state. -/
theorem setup_aborts_whenever_fixture_exists_witness :
    rename07_setup { fdirObj := .emptyDir, mnameObj := .regFile } =
      .error "tmp directory found" ∧
    chmod05_mkdir { testdir := .emptyDir } = .error "mkdir EEXIST" :=
  setup_aborts_whenever_fixture_exists
    { fdirObj := .emptyDir, mnameObj := .regFile } { testdir := .emptyDir }
    (by decide) (by decide)

/-- C9 counterexample: the claim says the expected-errno field is
unchanged across the whole run.  On a pre-3.0.0 kernel,
verify_fgetxattr rewrites `exp_err` of the FIFO case in place from
ENODATA to EPERM — a mutation that stores no late-bound resource
(`ret_value` stays `none`). -/
theorem exp_err_mutated_counterexample :
    (tcAt 3).exp_err = ENODATA ∧
    (verify_fgetxattr true (tcAt 3) { ret := -1, err := EPERM } []).tcAfter.exp_err
      = EPERM ∧
    ENODATA ≠ EPERM ∧
    (verify_fgetxattr true (tcAt 3) { ret := -1, err := EPERM } []).tcAfter.ret_value
      = none := by
  decide

/-- C9 as amended: a run step never mutates a TestCase record except to
store a late-bound owned resource and except for the expected-errno
field, which verify_fgetxattr rewrites in place from ENODATA to EPERM
when the running kernel predates 3.0.0; the expected-return field is
unchanged in every case, and on kernels at or after 3.0.0 the record is
unchanged entirely.  Stated as a full characterisation of the record
verify_fgetxattr leaves behind. -/
theorem verify_fgetxattr_mutation_characterised (kverLt300 : Bool)
    (c : TestCase) (obs : Outcome) (buf : List Char) :
    (verify_fgetxattr kverLt300 c obs buf).tcAfter.exp_ret = c.exp_ret ∧
    (verify_fgetxattr kverLt300 c obs buf).tcAfter =
      (if obs.ret = -1 ∧ obs.err = EOPNOTSUPP then c
       else if c.exp_err = ENODATA ∧ kverLt300 then { c with exp_err := EPERM }
       else c) := by
  unfold verify_fgetxattr
  by_cases h1 : obs.ret = -1 ∧ obs.err = EOPNOTSUPP
  · simp [h1]
  · by_cases h2 : c.exp_err = ENODATA ∧ kverLt300 = true
    · simp [h1, h2]
    · simp [h1, h2]

/-- C10: whenever the invocation returns a non-negative value,
verify_fgetxattr emits the TPASS verdict "fgetxattr(2) on %s got the
right value" unconditionally, and a content mismatch adds a TFAIL
without suppressing that TPASS. -/
theorem pass_verdict_unconditional_on_success (kverLt300 : Bool)
    (c : TestCase) (obs : Outcome) (buf : List Char) (h : 0 ≤ obs.ret) :
    Verdict.tpass "fgetxattr(2) on %s got the right value" ∈
      (verify_fgetxattr kverLt300 c obs buf).verdicts ∧
    (buf.take XATTR_TEST_VALUE_SIZE ≠ xattrValue.take XATTR_TEST_VALUE_SIZE →
      Verdict.tfail "wrong value" ∈
        (verify_fgetxattr kverLt300 c obs buf).verdicts) := by
  have hne : ¬(obs.ret = -1 ∧ obs.err = EOPNOTSUPP) := by
    rintro ⟨h1, _⟩
    omega
  constructor
  · simp only [verify_fgetxattr, if_neg hne, if_pos h]
    simp
  · intro hb
    simp only [verify_fgetxattr, if_neg hne, if_pos h, if_pos hb]
    simp

/-- Witness for the C10 theorem: a successful return with an empty
(mismatching) buffer still carries the pass verdict, next to the
mismatch failure. -/
theorem pass_verdict_unconditional_on_success_witness :
    Verdict.tfail "wrong value" ∈
      (verify_fgetxattr false defaultCase { ret := 20, err := 0 }
        ([] : List Char)).verdicts :=
  (pass_verdict_unconditional_on_success false defaultCase
    { ret := 20, err := 0 } [] (by decide)).2 (by decide)

end LtpSpec
